import Mathlib

/-!
Shallow embedding of the chat-session server (Express + MongoDB backend):
session documents, the session lifecycle endpoints, the share-token
endpoints, and the per-message relay endpoint with its provider-outcome
classification. The store is modelled as a list of session documents and
each endpoint handler as a pure function from the request data (plus the
injected nondeterminism: fresh ids, fresh random tokens, the parsed
provider response, the current time) to a response value and the new store.
-/

namespace ChatApp

/-- One chat message as stored in a session document: a role
("user" or "assistant") and its text content. -/
structure Message where
  role : String
  content : String
deriving DecidableEq

/-- A chat session document: id, owner, title, ordered message list,
optional share token and last-updated timestamp. -/
structure Session where
  id : String
  owner : String
  title : String
  messages : List Message
  shareToken : Option String
  lastUpdated : Nat
deriving DecidableEq

/-- The collection of chat session documents. -/
abbrev Store := List Session

/-- JavaScript-style a-or-default (the idiom env.X or a literal): the
default is used when the value is missing or the empty string. -/
def jsOr (v : Option String) (dflt : String) : String :=
  match v with
  | none => dflt
  | some s => if s = "" then dflt else s

/-- JavaScript truthiness of an optionally-present string field. -/
def jsTruthy (v : Option String) : Bool :=
  match v with
  | none => false
  | some s => s != ""

/-- ChatSession.findById over the collection. -/
def findById (store : Store) (sid : String) : Option Session :=
  store.find? (fun s => s.id == sid)

/-- ChatSession.findByIdAndUpdate: applies the field update to the
document carrying the given id, leaving the other documents unchanged. -/
def updateById (store : Store) (sid : String) (f : Session → Session) : Store :=
  store.map (fun s => if s.id = sid then f s else s)

/-- ChatSession.findOne on the shareToken field. -/
def getByShareToken (store : Store) (tok : String) : Option Session :=
  store.find? (fun s => s.shareToken == some tok)

/-- Hex digit test used by the ObjectId format check. -/
def isHexChar (c : Char) : Bool :=
  c.isDigit || ('a' ≤ c && c ≤ 'f') || ('A' ≤ c && c ≤ 'F')

/-- mongoose.Types.ObjectId.isValid on a string: a 24-character
hex string, or any 12-character string. -/
def isValidObjectId (s : String) : Bool :=
  (s.length == 24 && s.toList.all isHexChar) || s.length == 12

/-- POST /api/chat/sessions: creates a session owned by the caller with
title = body.title or the fixed default, and an empty message list. The
fresh document id is injected. -/
def createSession (store : Store) (newId userId : String) (titleHint : Option String)
    (now : Nat) : Session × Store :=
  let s : Session :=
    { id := newId, owner := userId, title := jsOr titleHint "New Chat",
      messages := [], shareToken := none, lastUpdated := now }
  (s, store ++ [s])

/-- Response of GET /api/chat/sessions/:sessionId. -/
inductive GetResult where
  | found (s : Session)
  | notFound
  | forbidden
deriving DecidableEq

/-- GET /api/chat/sessions/:sessionId: 404 when the id resolves to no
document, 403 when the owner differs from the authenticated user. -/
def getSession (store : Store) (sid userId : String) : GetResult :=
  match findById store sid with
  | none => .notFound
  | some session =>
    if session.owner ≠ userId then .forbidden
    else .found session

/-- Response of DELETE /api/chat/sessions/:sessionId. -/
inductive DeleteResult where
  | deleted
  | notFound
  | forbidden
deriving DecidableEq

/-- DELETE /api/chat/sessions/:sessionId: same lookup and ownership check
as getSession, then findByIdAndDelete removes the document. -/
def deleteSession (store : Store) (sid userId : String) : DeleteResult × Store :=
  match findById store sid with
  | none => (.notFound, store)
  | some session =>
    if session.owner ≠ userId then (.forbidden, store)
    else (.deleted, store.filter (fun s => s.id != sid))

/-- Response of POST /api/chat/sessions/:sessionId/share. -/
inductive ShareResult where
  | issued (token url : String)
  | notFound
  | forbidden
deriving DecidableEq

/-- POST /api/chat/sessions/:sessionId/share: after the lookup and
ownership check, persists the fresh random token (injected here, produced
by crypto.randomBytes(16).toString hex in the source) with
findByIdAndUpdate and returns it with baseUrl/share/token. -/
def issueShareToken (store : Store) (sid userId freshToken baseUrl : String) :
    ShareResult × Store :=
  match findById store sid with
  | none => (.notFound, store)
  | some session =>
    if session.owner ≠ userId then (.forbidden, store)
    else (.issued freshToken (baseUrl ++ "/share/" ++ freshToken),
          updateById store sid (fun s => { s with shareToken := some freshToken }))

/-- The two fields the handler reads out of a parsed successful provider
JSON body: candidates[0].content.parts[0].text and
promptFeedback.blockReason, each possibly absent. -/
structure ProviderData where
  replyText : Option String
  blockReason : Option String
deriving DecidableEq

/-- Outcome of the fetch to the provider: a non-ok HTTP status with its
raw body text, or an ok response with its parsed JSON body. -/
inductive ProviderResponse where
  | httpError (status : Nat) (body : String)
  | success (data : ProviderData)
deriving DecidableEq

/-- Environment configuration read by the message handler. -/
structure Config where
  apiKey : Option String
  geminiModel : Option String
deriving DecidableEq

/-- errorBody.includes(needle): the needle occurs contiguously in the hay. -/
def strIncludes (hay needle : String) : Bool :=
  decide (needle.toList <:+: hay.toList)

/-- The status-dependent diagnostic hint attached to an upstream error
response (undefined for unlisted statuses). -/
def computeHint (status : Nat) (body : String) (modelName : String) : Option String :=
  if status = 404 then
    some ("404 Not Found. Check the Model Name (" ++ modelName ++
      ") and API version (v1beta). Try regenerating your API key.")
  else if status = 403 then
    some "403 Forbidden. Your API key may be invalid, or billing/quota limits may be reached."
  else if status = 400 ∧ strIncludes body "API_KEY_INVALID" then
    some "400 Bad Request / API_KEY_INVALID. The API key is likely incorrect or expired."
  else none

/-- The development fallback reply returned when no API key is set. -/
def echoReply (input : String) : String :=
  "Echo (dev): " ++ input ++ " — set GEMINI_API_KEY to use real Gemini."

/-- The assistant text persisted when the provider blocks the prompt. -/
def blockedReply (reason : String) : String :=
  "Your prompt was blocked due to: " ++ reason ++ "."

/-- input.slice(0, 50) plus an ellipsis when input.length exceeds 50. -/
def deriveTitle (input : String) : String :=
  String.mk (input.toList.take 50) ++ (if input.length > 50 then "..." else "")

/-- The user-role message of an appended pair. -/
def userMsg (input : String) : Message := { role := "user", content := input }

/-- The assistant-role message of an appended pair. -/
def assistantMsg (text : String) : Message := { role := "assistant", content := text }

/-- The push of the {user, assistant} pair onto the session document,
together with the lastUpdated refresh, in one atomic update. -/
def appendPair (store : Store) (sid input reply : String) (now : Nat) : Store :=
  updateById store sid (fun s =>
    { s with messages := s.messages ++ [userMsg input, assistantMsg reply],
             lastUpdated := now })

/-- The title rewrite issued by the first-exchange check. -/
def setTitleById (store : Store) (sid title : String) : Store :=
  updateById store sid (fun s => { s with title := title })

/-- Response of POST /api/chat/sessions/:sessionId/messages. -/
inductive RelayResult where
  | missingInput
  | missingSessionId
  | invalidIdFormat
  | notFound
  | forbidden
  | replyOk (text : String)
  | upstreamErr (upstreamStatus : Nat) (upstreamBody : String) (hint : Option String)
  | malformedResp (data : ProviderData)
deriving DecidableEq

/-- The HTTP status code each relay response is sent with. -/
def RelayResult.httpStatus : RelayResult → Nat
  | .missingInput => 400
  | .missingSessionId => 400
  | .invalidIdFormat => 400
  | .notFound => 404
  | .forbidden => 403
  | .replyOk _ => 200
  | .upstreamErr _ _ _ => 502
  | .malformedResp _ => 502

/-- The error field of each relay response body (none on success). -/
def RelayResult.errorText : RelayResult → Option String
  | .missingInput => some "Missing input"
  | .missingSessionId => some "Missing session ID"
  | .invalidIdFormat => some "Invalid session ID format"
  | .notFound => some "Chat session not found"
  | .forbidden => some "Forbidden"
  | .replyOk _ => none
  | .upstreamErr _ _ _ => some "Upstream API error"
  | .malformedResp _ =>
    some "The model returned a response, but I couldn\x27t find the text or reason for failure."

/-- POST /api/chat/sessions/:sessionId/messages: validates the input and
the session id format, loads and authorizes the session, falls back to the
echo reply when no API key is configured, and otherwise classifies the
provider response: non-ok status becomes a 502 with upstream status, body
and hint; a truthy reply text is persisted as a pair and may trigger the
first-exchange title rewrite; a truthy block reason is persisted as a pair
carrying the block notice; anything else is a 502 malformed-response
error. The parsed provider response and the current time are injected. -/
def postMessage (cfg : Config) (store : Store) (userId sid input : String)
    (now : Nat) (provider : ProviderResponse) : RelayResult × Store :=
  if input = "" then (.missingInput, store)
  else if sid = "" then (.missingSessionId, store)
  else if ¬ isValidObjectId sid then (.invalidIdFormat, store)
  else
    match findById store sid with
    | none => (.notFound, store)
    | some session =>
      if session.owner ≠ userId then (.forbidden, store)
      else
        match cfg.apiKey with
        | none => (.replyOk (echoReply input), store)
        | some _ =>
          match provider with
          | .httpError status body =>
            (.upstreamErr status body
              (computeHint status body (jsOr cfg.geminiModel "gemini-2.5-flash")), store)
          | .success data =>
            if jsTruthy data.replyText then
              let replyText := data.replyText.getD ""
              let store1 := appendPair store sid input replyText now
              let store2 :=
                match findById store1 sid with
                | some s2 =>
                  if s2.messages.length = 2 then setTitleById store1 sid (deriveTitle input)
                  else store1
                | none => store1
              (.replyOk replyText, store2)
            else if jsTruthy data.blockReason then
              let reply := blockedReply (data.blockReason.getD "")
              (.replyOk reply, appendPair store sid input reply now)
            else (.malformedResp data, store)

/-- One state-mutating API operation, with its injected nondeterminism
(fresh id, fresh token, provider response, timestamp) as payload. -/
inductive Op where
  | createS (newId userId : String) (titleHint : Option String) (now : Nat)
  | relayMsg (cfg : Config) (userId sid input : String) (now : Nat) (pr : ProviderResponse)
  | shareS (sid userId freshToken baseUrl : String)
  | deleteS (sid userId : String)

/-- The store after one operation. -/
def stepOp (store : Store) : Op → Store
  | .createS nid uid t now => (createSession store nid uid t now).2
  | .relayMsg cfg uid sid input now pr => (postMessage cfg store uid sid input now pr).2
  | .shareS sid uid tok url => (issueShareToken store sid uid tok url).2
  | .deleteS sid uid => (deleteSession store sid uid).2

/-- The store reached from the empty store by a sequence of operations. -/
def runOps (ops : List Op) : Store := ops.foldl stepOp []

/-- The message list is unchanged or extended by one user-assistant pair. -/
def msgExtend (m m' : List Message) : Prop :=
  m' = m ∨ ∃ u a, m' = m ++ [u, a]

/-- Every document of the new store is a document of the old store whose
message list is unchanged or extended by exactly one pair. -/
def grows (old new : Store) : Prop :=
  ∀ s' ∈ new, ∃ s ∈ old, s'.id = s.id ∧ msgExtend s.messages s'.messages

/-- Every document's message list has even length. -/
def evenStore (store : Store) : Prop :=
  ∀ s ∈ store, s.messages.length % 2 = 0

theorem findById_updateById (store : Store) (sid : String) (f : Session → Session)
    (hf : ∀ s, (f s).id = s.id) :
    findById (updateById store sid f) sid = (findById store sid).map f := by
  induction store with
  | nil => rfl
  | cons a t ih =>
    by_cases h : a.id = sid
    · simp [findById, updateById, h, hf]
    · simp only [findById, updateById, List.map_cons] at *
      rw [if_neg h]
      rw [List.find?_cons_of_neg, List.find?_cons_of_neg]
      · exact ih
      · simp [h]
      · simp [h]

theorem mem_updateById {store : Store} {sid : String} {f : Session → Session} {s' : Session}
    (h : s' ∈ updateById store sid f) :
    ∃ s ∈ store, s' = if s.id = sid then f s else s := by
  rcases List.mem_map.mp h with ⟨s, hs, rfl⟩
  exact ⟨s, hs, rfl⟩

theorem getByShareToken_eq_none {store : Store} {tok : String}
    (h : ∀ s ∈ store, s.shareToken ≠ some tok) :
    getByShareToken store tok = none := by
  apply List.find?_eq_none.mpr
  intro s hs
  simpa using h s hs

theorem getByShareToken_updateById_self {store : Store} {sid tok : String} {s : Session}
    (hfind : findById store sid = some s)
    (hfresh : ∀ s' ∈ store, s'.id ≠ sid → s'.shareToken ≠ some tok) :
    getByShareToken (updateById store sid (fun u => { u with shareToken := some tok })) tok
      = some { s with shareToken := some tok } := by
  induction store with
  | nil => simp [findById] at hfind
  | cons a t ih =>
    by_cases h : a.id = sid
    · have ha : a = s := by
        simpa [findById, h] using hfind
      subst ha
      simp [getByShareToken, updateById, h]
    · have ha' : a.shareToken ≠ some tok := hfresh a (List.mem_cons_self a t) h
      have hfind' : findById t sid = some s := by
        simpa [findById, h] using hfind
      have hfresh' : ∀ s' ∈ t, s'.id ≠ sid → s'.shareToken ≠ some tok := by
        intro s' hs' hne
        exact hfresh s' (List.mem_cons_of_mem a hs') hne
      simp only [getByShareToken, updateById, List.map_cons] at *
      rw [if_neg h, List.find?_cons_of_neg]
      · exact ih hfind' hfresh'
      · simp [ha']

theorem updateById_updateById (store : Store) (sid : String) (f g : Session → Session)
    (hg : ∀ s, (g s).id = s.id) :
    updateById (updateById store sid g) sid f = updateById store sid (fun s => f (g s)) := by
  simp only [updateById, List.map_map]
  congr 1
  funext s
  by_cases h : s.id = sid
  · simp [Function.comp, h, hg]
  · simp [Function.comp, h]

theorem findById_filter_ne (store : Store) (sid : String) :
    findById (store.filter (fun s => s.id != sid)) sid = none := by
  apply List.find?_eq_none.mpr
  intro s hs
  have := List.of_mem_filter hs
  simp at this ⊢
  exact this

theorem grows_refl (store : Store) : grows store store :=
  fun s' h => ⟨s', h, rfl, Or.inl rfl⟩

theorem grows_updateById (store : Store) (sid : String) (f : Session → Session)
    (hf : ∀ s, (f s).id = s.id ∧ msgExtend s.messages (f s).messages) :
    grows store (updateById store sid f) := by
  intro s' h
  rcases mem_updateById h with ⟨s, hs, rfl⟩
  by_cases hid : s.id = sid
  · exact ⟨s, hs, by simp [hid, (hf s).1], by simpa [hid] using (hf s).2⟩
  · exact ⟨s, hs, by simp [hid], by simp [hid, msgExtend]⟩

theorem grows_trans_preserve (a b : Store) (sid : String) (g : Session → Session)
    (hab : grows a b) (hg : ∀ s, (g s).id = s.id ∧ (g s).messages = s.messages) :
    grows a (updateById b sid g) := by
  intro s' h
  rcases mem_updateById h with ⟨s1, hs1, rfl⟩
  rcases hab s1 hs1 with ⟨s, hs, h1, h2⟩
  refine ⟨s, hs, ?_, ?_⟩
  · by_cases hid : s1.id = sid
    · rw [if_pos hid, (hg s1).1]; exact h1
    · rw [if_neg hid]; exact h1
  · by_cases hid : s1.id = sid
    · rw [if_pos hid, (hg s1).2]; exact h2
    · rw [if_neg hid]; exact h2

theorem postMessage_grows (cfg : Config) (store : Store) (uid sid input : String)
    (now : Nat) (pr : ProviderResponse) :
    grows store (postMessage cfg store uid sid input now pr).2 := by
  unfold postMessage
  have happ : ∀ reply,
      grows store (appendPair store sid input reply now) := by
    intro reply
    apply grows_updateById
    intro s
    exact ⟨rfl, Or.inr ⟨userMsg input, assistantMsg reply, rfl⟩⟩
  have htitle : ∀ reply,
      grows store (setTitleById (appendPair store sid input reply now) sid (deriveTitle input)) := by
    intro reply
    apply grows_trans_preserve _ _ _ _ (happ reply)
    intro s
    exact ⟨rfl, rfl⟩
  dsimp only
  repeat' split
  all_goals first
    | exact grows_refl store
    | apply happ
    | apply htitle

theorem issueShareToken_snd (store : Store) (sid uid tok url : String) :
    (issueShareToken store sid uid tok url).2 = store ∨
    (issueShareToken store sid uid tok url).2 =
      updateById store sid (fun s => { s with shareToken := some tok }) := by
  unfold issueShareToken
  cases hf : findById store sid with
  | none => exact Or.inl rfl
  | some s =>
    dsimp only
    by_cases h : s.owner ≠ uid
    · rw [if_pos h]; exact Or.inl rfl
    · rw [if_neg h]; exact Or.inr rfl

theorem deleteSession_snd (store : Store) (sid uid : String) :
    (deleteSession store sid uid).2 = store ∨
    (deleteSession store sid uid).2 = store.filter (fun s => s.id != sid) := by
  unfold deleteSession
  cases hf : findById store sid with
  | none => exact Or.inl rfl
  | some s =>
    dsimp only
    by_cases h : s.owner ≠ uid
    · rw [if_pos h]; exact Or.inl rfl
    · rw [if_neg h]; exact Or.inr rfl

theorem stepOp_even (store : Store) (op : Op) (h : evenStore store) :
    evenStore (stepOp store op) := by
  cases op with
  | createS nid uid t now =>
    intro s' hs'
    simp only [stepOp, createSession] at hs'
    rcases List.mem_append.mp hs' with hs' | hs'
    · exact h s' hs'
    · simp only [List.mem_singleton] at hs'
      subst hs'
      rfl
  | relayMsg cfg uid sid input now pr =>
    intro s' hs'
    rcases postMessage_grows cfg store uid sid input now pr s' hs' with ⟨s, hs, _, hm⟩
    rcases hm with hm | ⟨u, a, hm⟩
    · rw [hm]; exact h s hs
    · have hsm := h s hs
      rw [hm, List.length_append]
      simp only [List.length_cons, List.length_nil]
      omega
  | shareS sid uid tok url =>
    intro s' hs'
    simp only [stepOp] at hs'
    rcases issueShareToken_snd store sid uid tok url with he | he
    · rw [he] at hs'; exact h s' hs'
    · rw [he] at hs'
      rcases mem_updateById hs' with ⟨s, hs, rfl⟩
      by_cases hid : s.id = sid
      · rw [if_pos hid]; exact h s hs
      · rw [if_neg hid]; exact h s hs
  | deleteS sid uid =>
    intro s' hs'
    simp only [stepOp] at hs'
    rcases deleteSession_snd store sid uid with he | he
    · rw [he] at hs'; exact h s' hs'
    · rw [he] at hs'; exact h s' (List.mem_of_mem_filter hs')

theorem evenStore_foldl (ops : List Op) : ∀ store : Store, evenStore store →
    evenStore (ops.foldl stepOp store) := by
  induction ops with
  | nil => exact fun _ h => h
  | cons op t ih => exact fun store h => ih _ (stepOp_even store op h)

theorem runOps_even (ops : List Op) : evenStore (runOps ops) :=
  evenStore_foldl ops [] (fun s hs => absurd hs (List.not_mem_nil s))

theorem postMessage_echo (cfg : Config) (store : Store) (uid sid input : String)
    (now : Nat) (pr : ProviderResponse) (s : Session)
    (hkey : cfg.apiKey = none) (hin : input ≠ "") (hsid : sid ≠ "")
    (hvalid : isValidObjectId sid = true)
    (hfind : findById store sid = some s) (hown : s.owner = uid) :
    postMessage cfg store uid sid input now pr = (.replyOk (echoReply input), store) := by
  unfold postMessage
  rw [if_neg hin, if_neg hsid, if_neg (not_not_intro hvalid), hfind]
  dsimp only
  rw [if_neg (fun hno => hno hown), hkey]

theorem postMessage_upstream (cfg : Config) (store : Store) (uid sid input : String)
    (now : Nat) (status : Nat) (body : String) (s : Session) (k : String)
    (hkey : cfg.apiKey = some k) (hin : input ≠ "") (hsid : sid ≠ "")
    (hvalid : isValidObjectId sid = true)
    (hfind : findById store sid = some s) (hown : s.owner = uid) :
    postMessage cfg store uid sid input now (.httpError status body) =
      (.upstreamErr status body
        (computeHint status body (jsOr cfg.geminiModel "gemini-2.5-flash")), store) := by
  unfold postMessage
  rw [if_neg hin, if_neg hsid, if_neg (not_not_intro hvalid), hfind]
  dsimp only
  rw [if_neg (fun hno => hno hown), hkey]

theorem postMessage_malformed (cfg : Config) (store : Store) (uid sid input : String)
    (now : Nat) (data : ProviderData) (s : Session) (k : String)
    (hkey : cfg.apiKey = some k) (hin : input ≠ "") (hsid : sid ≠ "")
    (hvalid : isValidObjectId sid = true)
    (hfind : findById store sid = some s) (hown : s.owner = uid)
    (hrt : jsTruthy data.replyText = false) (hbr : jsTruthy data.blockReason = false) :
    postMessage cfg store uid sid input now (.success data) = (.malformedResp data, store) := by
  unfold postMessage
  rw [if_neg hin, if_neg hsid, if_neg (not_not_intro hvalid), hfind]
  dsimp only
  rw [if_neg (fun hno => hno hown), hkey]
  dsimp only
  rw [hrt, hbr]
  rfl

theorem postMessage_blocked (cfg : Config) (store : Store) (uid sid input : String)
    (now : Nat) (reason : String) (s : Session) (k : String)
    (hkey : cfg.apiKey = some k) (hin : input ≠ "") (hsid : sid ≠ "")
    (hvalid : isValidObjectId sid = true)
    (hfind : findById store sid = some s) (hown : s.owner = uid)
    (hreason : reason ≠ "") :
    postMessage cfg store uid sid input now (.success ⟨none, some reason⟩) =
      (.replyOk (blockedReply reason),
       appendPair store sid input (blockedReply reason) now) := by
  unfold postMessage
  rw [if_neg hin, if_neg hsid, if_neg (not_not_intro hvalid), hfind]
  dsimp only
  rw [if_neg (fun hno => hno hown), hkey]
  dsimp only [jsTruthy]
  rw [if_neg (by simp), if_pos (by simp [hreason])]
  rfl

theorem findById_appendPair (store : Store) (sid input reply : String) (now : Nat)
    (s : Session) (hfind : findById store sid = some s) :
    findById (appendPair store sid input reply now) sid =
      some { s with messages := s.messages ++ [userMsg input, assistantMsg reply],
                    lastUpdated := now } := by
  unfold appendPair
  rw [findById_updateById store sid
    (fun u => { u with messages := u.messages ++ [userMsg input, assistantMsg reply],
                       lastUpdated := now }) (fun _ => rfl), hfind]
  rfl

theorem postMessage_reply (cfg : Config) (store : Store) (uid sid input : String)
    (now : Nat) (t : String) (s : Session) (k : String)
    (hkey : cfg.apiKey = some k) (hin : input ≠ "") (hsid : sid ≠ "")
    (hvalid : isValidObjectId sid = true)
    (hfind : findById store sid = some s) (hown : s.owner = uid)
    (ht : t ≠ "") :
    postMessage cfg store uid sid input now (.success ⟨some t, none⟩) =
      (.replyOk t,
       if s.messages.length = 0 then
         setTitleById (appendPair store sid input t now) sid (deriveTitle input)
       else appendPair store sid input t now) := by
  unfold postMessage
  rw [if_neg hin, if_neg hsid, if_neg (not_not_intro hvalid), hfind]
  dsimp only
  rw [if_neg (fun hno => hno hown), hkey]
  dsimp only [jsTruthy]
  rw [if_pos (by simp [ht])]
  dsimp only [Option.getD]
  rw [findById_appendPair store sid input t now s hfind]
  dsimp only
  congr 1
  by_cases h0 : s.messages.length = 0
  · rw [if_pos (by simp [h0] : ({ s with
        messages := s.messages ++ [userMsg input, assistantMsg t],
        lastUpdated := now } : Session).messages.length = 2), if_pos h0]
  · rw [if_neg (by simp [h0] : ¬({ s with
        messages := s.messages ++ [userMsg input, assistantMsg t],
        lastUpdated := now } : Session).messages.length = 2), if_neg h0]

theorem findById_setTitleById (store : Store) (sid title : String)
    (s : Session) (hfind : findById store sid = some s) :
    findById (setTitleById store sid title) sid = some { s with title := title } := by
  unfold setTitleById
  rw [findById_updateById store sid (fun u => { u with title := title }) (fun _ => rfl), hfind]
  rfl

/-- A 24-character hex session id used by the concrete examples. -/
def sampleId : String := "aaaaaaaaaaaaaaaaaaaaaaaa"

/-- A freshly created session document owned by user u1: zero messages,
default title, no share token. -/
def sampleSession : Session :=
  { id := sampleId, owner := "u1", title := "New Chat", messages := [],
    shareToken := none, lastUpdated := 0 }

/-- Environment with no provider credential configured. -/
def noKeyCfg : Config := { apiKey := none, geminiModel := none }

/-- Environment with a provider credential configured. -/
def someKeyCfg : Config := { apiKey := some "k", geminiModel := none }

/-- C1 counterexample: on a session with zero messages and no provider
credential configured, relay returns the deterministic echo reply, but the
store is returned unchanged: the session still has zero messages (not
two) and still carries the default title rather than one derived from the
utterance. -/
theorem echo_fallback_counterexample :
    (postMessage noKeyCfg [sampleSession] "u1" sampleId "Hello" 1
        (.success ⟨none, none⟩)).1 = .replyOk (echoReply "Hello") ∧
    (postMessage noKeyCfg [sampleSession] "u1" sampleId "Hello" 1
        (.success ⟨none, none⟩)).2 = [sampleSession] ∧
    sampleSession.messages.length = 0 ∧
    sampleSession.title ≠ deriveTitle "Hello" := by
  refine ⟨rfl, rfl, rfl, ?_⟩
  decide

/-- C1 (amended): for every session with an authorized caller and no
provider credential configured, relay returns the deterministic echo
reply (the dev echo prefix around the utterance) and persists nothing:
the store — hence the session's messages and title — is unchanged. -/
theorem echo_fallback_no_persist (cfg : Config) (store : Store)
    (uid sid input : String) (now : Nat) (pr : ProviderResponse) (s : Session)
    (hkey : cfg.apiKey = none) (hin : input ≠ "") (hsid : sid ≠ "")
    (hvalid : isValidObjectId sid = true)
    (hfind : findById store sid = some s) (hown : s.owner = uid) :
    postMessage cfg store uid sid input now pr = (.replyOk (echoReply input), store) :=
  postMessage_echo cfg store uid sid input now pr s hkey hin hsid hvalid hfind hown

theorem echo_fallback_no_persist_witness :
    postMessage noKeyCfg [sampleSession] "u1" sampleId "Hello" 1 (.success ⟨none, none⟩)
      = (.replyOk (echoReply "Hello"), [sampleSession]) :=
  echo_fallback_no_persist noKeyCfg [sampleSession] "u1" sampleId "Hello" 1
    (.success ⟨none, none⟩) sampleSession rfl (by decide) (by decide) (by decide)
    (by decide) rfl

/-- C2 counterexample: a Blocked outcome on a session's first exchange
appends the pair (messages.length becomes 2) and returns the block
notice, but does not trigger title auto-derivation: the title stays at
the default instead of being derived from the utterance. -/
theorem blocked_no_title_counterexample :
    (postMessage someKeyCfg [sampleSession] "u1" sampleId "Hello" 5
        (.success ⟨none, some "SAFETY"⟩)).1 = .replyOk (blockedReply "SAFETY") ∧
    ((findById (postMessage someKeyCfg [sampleSession] "u1" sampleId "Hello" 5
        (.success ⟨none, some "SAFETY"⟩)).2 sampleId).map
          (fun s => s.messages.length) = some 2) ∧
    ((findById (postMessage someKeyCfg [sampleSession] "u1" sampleId "Hello" 5
        (.success ⟨none, some "SAFETY"⟩)).2 sampleId).map Session.title
        = some "New Chat") ∧
    "New Chat" ≠ deriveTitle "Hello" := by
  refine ⟨rfl, rfl, rfl, ?_⟩
  decide

/-- C2 (amended): for every relay call whose provider outcome is Blocked,
the call appends the {user, utterance} and {assistant, block-notice} pair
to the session, refreshes lastUpdated, and returns the assistant block
notice to the caller; the title is not rewritten, not even when this was
the session's first exchange. -/
theorem blocked_appends_pair_no_title (cfg : Config) (store : Store)
    (uid sid input : String) (now : Nat) (reason : String) (s : Session) (k : String)
    (hkey : cfg.apiKey = some k) (hin : input ≠ "") (hsid : sid ≠ "")
    (hvalid : isValidObjectId sid = true)
    (hfind : findById store sid = some s) (hown : s.owner = uid)
    (hreason : reason ≠ "") :
    postMessage cfg store uid sid input now (.success ⟨none, some reason⟩) =
      (.replyOk (blockedReply reason),
       appendPair store sid input (blockedReply reason) now) ∧
    findById (postMessage cfg store uid sid input now (.success ⟨none, some reason⟩)).2 sid =
      some { s with
             messages := s.messages ++ [userMsg input, assistantMsg (blockedReply reason)],
             lastUpdated := now } := by
  have h := postMessage_blocked cfg store uid sid input now reason s k
    hkey hin hsid hvalid hfind hown hreason
  refine ⟨h, ?_⟩
  rw [h]
  exact findById_appendPair store sid input (blockedReply reason) now s hfind

theorem blocked_appends_pair_no_title_witness :
    postMessage someKeyCfg [sampleSession] "u1" sampleId "Hi" 5
        (.success ⟨none, some "SAFETY"⟩) =
      (.replyOk (blockedReply "SAFETY"),
       appendPair [sampleSession] sampleId "Hi" (blockedReply "SAFETY") 5) ∧
    findById (postMessage someKeyCfg [sampleSession] "u1" sampleId "Hi" 5
        (.success ⟨none, some "SAFETY"⟩)).2 sampleId =
      some { sampleSession with
             messages := sampleSession.messages ++
               [userMsg "Hi", assistantMsg (blockedReply "SAFETY")],
             lastUpdated := 5 } :=
  blocked_appends_pair_no_title someKeyCfg [sampleSession] "u1" sampleId "Hi" 5 "SAFETY"
    sampleSession "k" rfl (by decide) (by decide) (by decide) (by decide) rfl (by decide)

/-- C3 counterexample: a whitespace-only utterance (a single space, all of
whose characters are whitespace) is not rejected: the relay proceeds and
answers (here with the echo fallback) instead of failing with the
InvalidInput-class missing-input error. -/
theorem whitespace_input_not_rejected :
    " ".toList.all Char.isWhitespace = true ∧
    (postMessage noKeyCfg [sampleSession] "u1" sampleId " " 1
        (.success ⟨none, none⟩)).1 = .replyOk (echoReply " ") ∧
    RelayResult.replyOk (echoReply " ") ≠ .missingInput := by
  refine ⟨rfl, rfl, ?_⟩
  decide

/-- C3 (amended): relay rejects the empty utterance with the
InvalidInput-class missing-input error (HTTP 400), leaving the store
completely unchanged and touching neither the repository nor the
provider; a non-empty utterance — whitespace-only ones included — is
never rejected as missing input. -/
theorem empty_input_rejected (cfg : Config) (store : Store) (uid sid : String)
    (now : Nat) (pr : ProviderResponse) :
    postMessage cfg store uid sid "" now pr = (.missingInput, store) ∧
    RelayResult.missingInput.httpStatus = 400 ∧
    (∀ input : String, input ≠ "" →
      (postMessage cfg store uid sid input now pr).1 ≠ .missingInput) := by
  refine ⟨?_, rfl, ?_⟩
  · unfold postMessage
    rw [if_pos rfl]
  · intro input hin
    unfold postMessage
    rw [if_neg hin]
    dsimp only
    repeat' split
    all_goals simp

theorem empty_input_rejected_witness :
    postMessage noKeyCfg [sampleSession] "u1" sampleId "" 1 (.success ⟨none, none⟩)
        = (.missingInput, [sampleSession]) ∧
    (postMessage noKeyCfg [sampleSession] "u1" sampleId "x" 1
        (.success ⟨none, none⟩)).1 ≠ .missingInput :=
  ⟨(empty_input_rejected noKeyCfg [sampleSession] "u1" sampleId 1
      (.success ⟨none, none⟩)).1,
   (empty_input_rejected noKeyCfg [sampleSession] "u1" sampleId 1
      (.success ⟨none, none⟩)).2.2 "x" (by decide)⟩

/-- C4: for every relay call whose provider outcome is an upstream HTTP
error or a malformed success body, nothing is appended — the store is
returned unchanged — and the caller-visible error carries the upstream
status and the status-derived hint (upstream errors), or the raw parsed
data (malformed responses). -/
theorem error_outcomes_append_nothing (cfg : Config) (store : Store)
    (uid sid input : String) (now : Nat) (s : Session) (k : String)
    (hkey : cfg.apiKey = some k) (hin : input ≠ "") (hsid : sid ≠ "")
    (hvalid : isValidObjectId sid = true)
    (hfind : findById store sid = some s) (hown : s.owner = uid) :
    (∀ status body,
      postMessage cfg store uid sid input now (.httpError status body) =
        (.upstreamErr status body
          (computeHint status body (jsOr cfg.geminiModel "gemini-2.5-flash")), store)) ∧
    (∀ data : ProviderData,
      jsTruthy data.replyText = false → jsTruthy data.blockReason = false →
      postMessage cfg store uid sid input now (.success data) =
        (.malformedResp data, store)) :=
  ⟨fun status body => postMessage_upstream cfg store uid sid input now status body s k
      hkey hin hsid hvalid hfind hown,
   fun data hrt hbr => postMessage_malformed cfg store uid sid input now data s k
      hkey hin hsid hvalid hfind hown hrt hbr⟩

theorem error_outcomes_append_nothing_witness :
    postMessage someKeyCfg [sampleSession] "u1" sampleId "Hi" 1 (.httpError 503 "oops") =
      (.upstreamErr 503 "oops"
        (computeHint 503 "oops" (jsOr someKeyCfg.geminiModel "gemini-2.5-flash")),
       [sampleSession]) ∧
    postMessage someKeyCfg [sampleSession] "u1" sampleId "Hi" 1 (.success ⟨none, none⟩) =
      (.malformedResp ⟨none, none⟩, [sampleSession]) :=
  ⟨(error_outcomes_append_nothing someKeyCfg [sampleSession] "u1" sampleId "Hi" 1
      sampleSession "k" rfl (by decide) (by decide) (by decide) (by decide) rfl).1
      503 "oops",
   (error_outcomes_append_nothing someKeyCfg [sampleSession] "u1" sampleId "Hi" 1
      sampleSession "k" rfl (by decide) (by decide) (by decide) (by decide) rfl).2
      ⟨none, none⟩ rfl rfl⟩

/-- C5 counterexample: an append coming from a Blocked outcome leaves
messages.length == 2 and yet the title is not rewritten: title
auto-derivation does not fire precisely when an append leaves two
messages. -/
theorem title_fire_counterexample :
    ((findById (postMessage someKeyCfg [sampleSession] "u1" sampleId "World" 3
        (.success ⟨none, some "OTHER"⟩)).2 sampleId).map
      (fun s => s.messages.length) = some 2) ∧
    ((findById (postMessage someKeyCfg [sampleSession] "u1" sampleId "World" 3
        (.success ⟨none, some "OTHER"⟩)).2 sampleId).map Session.title
        = some "New Chat") ∧
    "New Chat" ≠ deriveTitle "World" := by
  refine ⟨rfl, rfl, ?_⟩
  decide

/-- C5 (amended): title auto-derivation fires exactly on the appends that
come from a successful provider Reply and leave messages.length == 2: a
Reply append sets the title to the utterance truncated to 50 characters
with an ellipsis marker iff longer, when the session previously held zero
messages, and leaves the title unchanged otherwise; appends coming from
Blocked outcomes never modify the title. -/
theorem title_fires_only_on_reply_second_message (cfg : Config) (store : Store)
    (uid sid input : String) (now : Nat) (s : Session) (k : String)
    (hkey : cfg.apiKey = some k) (hin : input ≠ "") (hsid : sid ≠ "")
    (hvalid : isValidObjectId sid = true)
    (hfind : findById store sid = some s) (hown : s.owner = uid) :
    (∀ t : String, t ≠ "" →
      findById (postMessage cfg store uid sid input now (.success ⟨some t, none⟩)).2 sid =
        some { s with
               messages := s.messages ++ [userMsg input, assistantMsg t],
               lastUpdated := now,
               title := if s.messages.length + 2 = 2 then deriveTitle input else s.title }) ∧
    (∀ reason : String, reason ≠ "" →
      (findById (postMessage cfg store uid sid input now
          (.success ⟨none, some reason⟩)).2 sid).map Session.title = some s.title) ∧
    (∀ u : String, deriveTitle u =
      String.mk (u.toList.take 50) ++ (if u.length > 50 then "..." else "")) := by
  refine ⟨?_, ?_, fun u => rfl⟩
  · intro t ht
    rw [postMessage_reply cfg store uid sid input now t s k hkey hin hsid hvalid hfind hown ht]
    dsimp only
    by_cases h0 : s.messages.length = 0
    · rw [if_pos h0,
        findById_setTitleById _ _ _ _ (findById_appendPair store sid input t now s hfind)]
      simp [h0]
    · rw [if_neg h0, findById_appendPair store sid input t now s hfind]
      have hne : ¬(s.messages.length + 2 = 2) := by omega
      rw [if_neg hne]
  · intro reason hr
    rw [postMessage_blocked cfg store uid sid input now reason s k
      hkey hin hsid hvalid hfind hown hr]
    dsimp only
    rw [findById_appendPair store sid input (blockedReply reason) now s hfind]
    rfl

theorem title_fires_witness :
    findById (postMessage someKeyCfg [sampleSession] "u1" sampleId "Hello" 4
        (.success ⟨some "Yo", none⟩)).2 sampleId =
      some { sampleSession with
             messages := sampleSession.messages ++ [userMsg "Hello", assistantMsg "Yo"],
             lastUpdated := 4,
             title := if sampleSession.messages.length + 2 = 2 then deriveTitle "Hello"
                      else sampleSession.title } :=
  (title_fires_only_on_reply_second_message someKeyCfg [sampleSession] "u1" sampleId
    "Hello" 4 sampleSession "k" rfl (by decide) (by decide) (by decide) (by decide)
    rfl).1 "Yo" (by decide)

/-- C6: issueShareToken on an owned session persists the supplied fresh
random token, overwriting any prior token — so the session has at most
one live token — and returns the configured base address joined with the
token; after two consecutive calls with distinct fresh tokens, the two
returned tokens differ and only the most recent one resolves via
getByShareToken (the first token resolves to nothing). -/
theorem share_token_overwrite (store : Store) (sid uid t1 t2 url : String) (s : Session)
    (hfind : findById store sid = some s) (hown : s.owner = uid)
    (hne : t1 ≠ t2)
    (hfresh1 : ∀ s' ∈ store, s'.id ≠ sid → s'.shareToken ≠ some t1)
    (hfresh2 : ∀ s' ∈ store, s'.id ≠ sid → s'.shareToken ≠ some t2) :
    (issueShareToken store sid uid t1 url).1 = .issued t1 (url ++ "/share/" ++ t1) ∧
    (issueShareToken (issueShareToken store sid uid t1 url).2 sid uid t2 url).1
      = .issued t2 (url ++ "/share/" ++ t2) ∧
    getByShareToken
      (issueShareToken (issueShareToken store sid uid t1 url).2 sid uid t2 url).2 t2
      = some { s with shareToken := some t2 } ∧
    getByShareToken
      (issueShareToken (issueShareToken store sid uid t1 url).2 sid uid t2 url).2 t1
      = none := by
  have h1 : issueShareToken store sid uid t1 url =
      (.issued t1 (url ++ "/share/" ++ t1),
       updateById store sid (fun u => { u with shareToken := some t1 })) := by
    unfold issueShareToken
    rw [hfind]
    dsimp only
    rw [if_neg (fun hno => hno hown)]
  have hfind1 : findById (updateById store sid
        (fun u => { u with shareToken := some t1 })) sid
      = some { s with shareToken := some t1 } := by
    rw [findById_updateById store sid
      (fun u => { u with shareToken := some t1 }) (fun _ => rfl), hfind]
    rfl
  have h2 : issueShareToken
        (updateById store sid (fun u => { u with shareToken := some t1 })) sid uid t2 url =
      (.issued t2 (url ++ "/share/" ++ t2),
       updateById (updateById store sid (fun u => { u with shareToken := some t1 })) sid
         (fun u => { u with shareToken := some t2 })) := by
    unfold issueShareToken
    rw [hfind1]
    dsimp only
    rw [if_neg (fun hno => hno hown)]
  refine ⟨by rw [h1], by rw [h1, h2], ?_, ?_⟩
  · rw [h1, h2]
    dsimp only
    exact @getByShareToken_updateById_self
      (updateById store sid (fun u => { u with shareToken := some t1 })) sid t2
      { s with shareToken := some t1 } hfind1 (by
      intro s' hs' hid
      rcases mem_updateById hs' with ⟨s0, hs0, rfl⟩
      by_cases h : s0.id = sid
      · rw [if_pos h] at hid
        exact absurd h hid
      · rw [if_neg h] at hid ⊢
        exact hfresh2 s0 hs0 h)
  · rw [h1, h2]
    dsimp only
    apply getByShareToken_eq_none
    intro s' hs'
    rcases mem_updateById hs' with ⟨s1, hs1, rfl⟩
    by_cases h : s1.id = sid
    · rw [if_pos h]
      intro hbad
      exact hne (Option.some.inj hbad).symm
    · rw [if_neg h]
      rcases mem_updateById hs1 with ⟨s0, hs0, rfl⟩
      by_cases h0 : s0.id = sid
      · rw [if_pos h0] at h
        exact absurd h0 h
      · rw [if_neg h0] at h ⊢
        exact hfresh1 s0 hs0 h0

theorem share_token_overwrite_witness :
    (issueShareToken [sampleSession] sampleId "u1" "tokA" "https://app").1
      = .issued "tokA" ("https://app" ++ "/share/" ++ "tokA") ∧
    (issueShareToken (issueShareToken [sampleSession] sampleId "u1" "tokA"
        "https://app").2 sampleId "u1" "tokB" "https://app").1
      = .issued "tokB" ("https://app" ++ "/share/" ++ "tokB") ∧
    getByShareToken (issueShareToken (issueShareToken [sampleSession] sampleId "u1"
        "tokA" "https://app").2 sampleId "u1" "tokB" "https://app").2 "tokB"
      = some { sampleSession with shareToken := some "tokB" } ∧
    getByShareToken (issueShareToken (issueShareToken [sampleSession] sampleId "u1"
        "tokA" "https://app").2 sampleId "u1" "tokB" "https://app").2 "tokA"
      = none :=
  share_token_overwrite [sampleSession] sampleId "u1" "tokA" "tokB" "https://app"
    sampleSession (by decide) rfl (by decide) (by decide) (by decide)

/-- A shared session owned by alice with a non-trivial message history. -/
def sharedSessionA : Session :=
  { id := sampleId, owner := "alice", title := "T",
    messages := [userMsg "hi", assistantMsg "yo"],
    shareToken := some "tok", lastUpdated := 7 }

/-- The same session document except owned by bob. -/
def sharedSessionB : Session := { sharedSessionA with owner := "bob" }

/-- C7 counterexample: the share-token lookup returns the full session
document, owner identity included: on a concrete store the response
discloses owner alice, and two stores whose sessions agree on the
message history (differing only in owner) give different responses — so
the payload is not the session's message history only. -/
theorem share_lookup_counterexample :
    getByShareToken [sharedSessionA] "tok" = some sharedSessionA ∧
    (getByShareToken [sharedSessionA] "tok").map Session.owner = some "alice" ∧
    sharedSessionA.messages = sharedSessionB.messages ∧
    getByShareToken [sharedSessionA] "tok" ≠ getByShareToken [sharedSessionB] "tok" := by
  refine ⟨rfl, rfl, rfl, ?_⟩
  decide

/-- C7 (amended): getByShareToken takes no caller identity at all; it
fails with NotFound exactly when no session carries the token, and on
success returns the full matching session document (owner and every other
field included), a member of the store carrying that token. -/
theorem share_lookup_no_auth (store : Store) (tok : String) :
    (getByShareToken store tok = none ↔ ∀ s ∈ store, s.shareToken ≠ some tok) ∧
    (∀ s, getByShareToken store tok = some s → s ∈ store ∧ s.shareToken = some tok) := by
  constructor
  · constructor
    · intro h s hs hcontra
      have := List.find?_eq_none.mp h s hs
      simp [hcontra] at this
    · exact fun h => getByShareToken_eq_none h
  · intro s h
    refine ⟨List.mem_of_find?_eq_some h, ?_⟩
    have := List.find?_some h
    simpa using this

theorem share_lookup_no_auth_witness :
    sharedSessionA ∈ [sharedSessionA] ∧ sharedSessionA.shareToken = some "tok" :=
  (share_lookup_no_auth [sharedSessionA] "tok").2 sharedSessionA rfl

/-- C8: getSession and deleteSession fail with NotFound when the id
resolves to no session, fail with Forbidden when the session's owner
differs from the caller (leaving the store unchanged), and a successful
delete removes the session permanently, so a second delete of the same
id fails with NotFound — delete is not idempotent. -/
theorem get_delete_auth_and_non_idempotent (store : Store) (sid uid : String) :
    (findById store sid = none →
      getSession store sid uid = .notFound ∧
      deleteSession store sid uid = (.notFound, store)) ∧
    (∀ s, findById store sid = some s → s.owner ≠ uid →
      getSession store sid uid = .forbidden ∧
      deleteSession store sid uid = (.forbidden, store)) ∧
    (∀ s, findById store sid = some s → s.owner = uid →
      getSession store sid uid = .found s ∧
      (deleteSession store sid uid).1 = .deleted ∧
      deleteSession (deleteSession store sid uid).2 sid uid =
        (.notFound, (deleteSession store sid uid).2)) := by
  refine ⟨?_, ?_, ?_⟩
  · intro h
    constructor
    · unfold getSession
      rw [h]
    · unfold deleteSession
      rw [h]
  · intro s hfind hno
    constructor
    · unfold getSession
      rw [hfind]
      dsimp only
      rw [if_pos hno]
    · unfold deleteSession
      rw [hfind]
      dsimp only
      rw [if_pos hno]
  · intro s hfind hown
    have hdel : deleteSession store sid uid =
        (.deleted, store.filter (fun u => u.id != sid)) := by
      unfold deleteSession
      rw [hfind]
      dsimp only
      rw [if_neg (fun hno => hno hown)]
    refine ⟨?_, ?_, ?_⟩
    · unfold getSession
      rw [hfind]
      dsimp only
      rw [if_neg (fun hno => hno hown)]
    · rw [hdel]
    · rw [hdel]
      dsimp only
      unfold deleteSession
      rw [findById_filter_ne store sid]

theorem get_delete_witness :
    getSession [sampleSession] sampleId "u1" = .found sampleSession ∧
    (deleteSession [sampleSession] sampleId "u1").1 = .deleted ∧
    deleteSession (deleteSession [sampleSession] sampleId "u1").2 sampleId "u1" =
      (.notFound, (deleteSession [sampleSession] sampleId "u1").2) :=
  (get_delete_auth_and_non_idempotent [sampleSession] sampleId "u1").2.2
    sampleSession rfl rfl

/-- C9: along every operation sequence from the empty store, every
session's messages.length is even, and evenness is preserved by every
single operation; moreover per step every session of the new store either
was just created with an empty message list or descends from an
equal-id session of the old store with its messages unchanged or extended
by exactly one user-assistant pair — messages never shrink and existing
entries are never rewritten; relay calls in particular only extend stores
this way. -/
theorem messages_even_and_append_only :
    (∀ ops : List Op, evenStore (runOps ops)) ∧
    (∀ (store : Store) (op : Op), evenStore store → evenStore (stepOp store op)) ∧
    (∀ (cfg : Config) (store : Store) (uid sid input : String) (now : Nat)
        (pr : ProviderResponse),
      grows store (postMessage cfg store uid sid input now pr).2) ∧
    (∀ (store : Store) (op : Op), ∀ s' ∈ stepOp store op,
      s'.messages = [] ∨
        ∃ s ∈ store, s'.id = s.id ∧ msgExtend s.messages s'.messages) := by
  refine ⟨runOps_even, stepOp_even, postMessage_grows, ?_⟩
  intro store op s' hs'
  cases op with
  | createS nid uid t now =>
    simp only [stepOp, createSession] at hs'
    rcases List.mem_append.mp hs' with h | h
    · exact Or.inr ⟨s', h, rfl, Or.inl rfl⟩
    · simp only [List.mem_singleton] at h
      subst h
      exact Or.inl rfl
  | relayMsg cfg uid sid input now pr =>
    exact Or.inr (postMessage_grows cfg store uid sid input now pr s' hs')
  | shareS sid uid tok url =>
    simp only [stepOp] at hs'
    rcases issueShareToken_snd store sid uid tok url with he | he
    · rw [he] at hs'
      exact Or.inr ⟨s', hs', rfl, Or.inl rfl⟩
    · rw [he] at hs'
      rcases mem_updateById hs' with ⟨s, hs, rfl⟩
      by_cases hid : s.id = sid
      · refine Or.inr ⟨s, hs, ?_, Or.inl ?_⟩
        · rw [if_pos hid]
        · rw [if_pos hid]
      · refine Or.inr ⟨s, hs, ?_, Or.inl ?_⟩
        · rw [if_neg hid]
        · rw [if_neg hid]
  | deleteS sid uid =>
    simp only [stepOp] at hs'
    rcases deleteSession_snd store sid uid with he | he
    · rw [he] at hs'
      exact Or.inr ⟨s', hs', rfl, Or.inl rfl⟩
    · rw [he] at hs'
      exact Or.inr ⟨s', List.mem_of_mem_filter hs', rfl, Or.inl rfl⟩

theorem messages_even_witness :
    evenStore (stepOp [sampleSession] (Op.deleteS sampleId "u1")) :=
  messages_even_and_append_only.2.1 [sampleSession] (Op.deleteS sampleId "u1")
    (fun s hs => by
      simp only [List.mem_singleton] at hs
      subst hs
      rfl)

/-- C10: a syntactically malformed session id (not a valid ObjectId
format) makes relay fail with the invalid-format error before any
repository lookup or provider call: the result is identical for every
store and provider response, the store is returned unchanged, and the
error is the 4xx invalid-format one ("Invalid session ID format"), not
NotFound. -/
theorem invalid_session_id_format (cfg : Config) (store : Store)
    (uid sid input : String) (now : Nat) (pr : ProviderResponse)
    (hin : input ≠ "") (hsid : sid ≠ "") (hinvalid : isValidObjectId sid = false) :
    postMessage cfg store uid sid input now pr = (.invalidIdFormat, store) ∧
    RelayResult.invalidIdFormat.httpStatus = 400 ∧
    RelayResult.invalidIdFormat.errorText = some "Invalid session ID format" ∧
    RelayResult.invalidIdFormat ≠ RelayResult.notFound := by
  have hcond : ¬ (isValidObjectId sid = true) := by
    simp [hinvalid]
  refine ⟨?_, rfl, rfl, by decide⟩
  unfold postMessage
  rw [if_neg hin, if_neg hsid, if_pos hcond]

theorem invalid_session_id_format_witness :
    postMessage noKeyCfg [] "u1" "zzz" "Hi" 1 (.success ⟨none, none⟩)
      = (.invalidIdFormat, []) :=
  (invalid_session_id_format noKeyCfg [] "u1" "zzz" "Hi" 1 (.success ⟨none, none⟩)
    (by decide) (by decide) (by decide)).1

end ChatApp
